import Mathlib

/-!
Verification development for train_model_cuda.py, a one-shot MNIST training
script.  The script is sequential orchestration of an ML framework: GPU
configuration with a CPU fallback, dataset loading, preprocessing
(normalisation, reshape, one-hot encoding), optional data augmentation,
model construction, compilation, fitting with callbacks (including a
best-only model checkpoint), evaluation, persisting the model, and a
conversion to the TensorFlow.js web format guarded by a try/except.

The embedding below models the script as a pure function from an
environment (the outcomes of the framework calls the script cannot
control: GPU presence, which guarded constructions raise, the per-epoch
validation accuracies observed during fitting, whether the web-format
converter is importable and succeeds) to a final program state: the
ordered trace of executed stages, the log lines printed, the files
written, and the in-memory model configuration.  The pure data
transformations of the script (pixel normalisation, the channel-dimension
reshape, one-hot encoding, the checkpoint callback policy) are embedded
directly as Lean functions.
-/

namespace MnistTrain

/-- Activation functions appearing in the layer stack of the script. -/
inductive Activ
  | relu
  | softmax
  deriving DecidableEq, Repr

/-- Data-augmentation operations of the augmentation Sequential
(lines 60-64 of the script). -/
inductive AugOp
  | randomRotation (factor : ℚ)
  | randomZoom (factor : ℚ)
  | randomTranslation (heightFactor widthFactor : ℚ)
  deriving DecidableEq, Repr

/-- The augmentation pipeline the script constructs: rotate up to 10
percent, zoom up to 10 percent, shift up to 10 percent. -/
def dataAugmentationOps : List AugOp :=
  [AugOp.randomRotation 0.1, AugOp.randomZoom 0.1,
   AugOp.randomTranslation 0.1 0.1]

/-- Layers of the Keras model, as configured by the script. -/
inductive Layer
  | input (h w c : Nat)
  | augmentation (ops : List AugOp)
  | conv2d (filters kh kw : Nat) (activation : Activ) (samePadding : Bool)
  | batchNormalization
  | maxPooling2d (ph pw : Nat)
  | dropout (rate : ℚ)
  | flatten
  | dense (units : Nat) (activation : Activ)
  deriving DecidableEq, Repr

/-- The fixed convolutional and dense tail of the model
(lines 85-117 of the script): three convolutional blocks followed by the
dense head ending in a 10-unit softmax layer. -/
def convAndDenseLayers : List Layer :=
  [Layer.conv2d 32 3 3 Activ.relu true, Layer.batchNormalization,
   Layer.conv2d 32 3 3 Activ.relu true, Layer.batchNormalization,
   Layer.maxPooling2d 2 2, Layer.dropout 0.25,
   Layer.conv2d 64 3 3 Activ.relu true, Layer.batchNormalization,
   Layer.conv2d 64 3 3 Activ.relu true, Layer.batchNormalization,
   Layer.maxPooling2d 2 2, Layer.dropout 0.25,
   Layer.conv2d 128 3 3 Activ.relu true, Layer.batchNormalization,
   Layer.maxPooling2d 2 2, Layer.dropout 0.25,
   Layer.flatten,
   Layer.dense 256 Activ.relu, Layer.batchNormalization, Layer.dropout 0.5,
   Layer.dense 128 Activ.relu, Layer.batchNormalization, Layer.dropout 0.5,
   Layer.dense 10 Activ.softmax]

/-- The full layer list the script assembles (lines 75-117): the input
layer, then the augmentation pipeline when it is enabled and present,
then the fixed convolutional and dense tail. -/
def buildLayers (useAugmentation : Bool)
    (dataAugmentation : Option (List AugOp)) : List Layer :=
  [Layer.input 28 28 1]
    ++ (match useAugmentation, dataAugmentation with
        | true, some ops => [Layer.augmentation ops]
        | _, _ => [])
    ++ convAndDenseLayers

/-- Pixel normalisation (lines 46-47): each 8-bit pixel value is divided
by 255.0. -/
def normalizePixel (p : Nat) : ℚ := (p : ℚ) / 255

/-- Normalise every pixel of a 28x28 image. -/
def normalizeImage (img : List (List Nat)) : List (List ℚ) :=
  img.map (fun row => row.map normalizePixel)

/-- The reshape of lines 50-51: append a channel dimension, turning each
pixel into a one-element innermost list, so a 28x28 image becomes
28x28x1. -/
def expandDims (img : List (List ℚ)) : List (List (List ℚ)) :=
  img.map (fun row => row.map (fun v => [v]))

/-- Full image preprocessing: normalise then add the channel dimension. -/
def preprocessImage (img : List (List Nat)) : List (List (List ℚ)) :=
  expandDims (normalizeImage img)

/-- One-hot encoding of a label (lines 54-55, keras.utils.to_categorical):
a vector of numClasses entries, 1 at index y and 0 elsewhere. -/
def to_categorical (y : Nat) (numClasses : Nat) : List ℚ :=
  (List.range numClasses).map (fun i => if i = y then 1 else 0)

/-- The four arrays returned by the MNIST loader (line 43). -/
structure Dataset where
  xTrain : List (List (List Nat))
  yTrain : List Nat
  xTest : List (List (List Nat))
  yTest : List Nat
  deriving DecidableEq, Repr

/-- Shape and range guarantees of the MNIST loader for one image: a
28x28 grid of 8-bit pixel values. -/
def imageWellFormed (img : List (List Nat)) : Prop :=
  img.length = 28 ∧ ∀ row ∈ img, row.length = 28 ∧ ∀ p ∈ row, p ≤ 255

/-- Shape and range guarantees of the MNIST loader for the whole
dataset: every image is a 28x28 grid of 8-bit values and every label is
a digit. -/
def datasetWellFormed (d : Dataset) : Prop :=
  (∀ img ∈ d.xTrain ++ d.xTest, imageWellFormed img) ∧
    ∀ y ∈ d.yTrain ++ d.yTest, y ≤ 9

instance (img : List (List Nat)) : Decidable (imageWellFormed img) := by
  unfold imageWellFormed; infer_instance

instance (d : Dataset) : Decidable (datasetWellFormed d) := by
  unfold datasetWellFormed; infer_instance

/-- Quantities a training callback monitors. -/
inductive Monitor
  | valLoss
  | valAccuracy
  deriving DecidableEq, Repr

/-- The callback configurations of lines 130-150. -/
inductive Callback
  | reduceLROnPlateau (monitor : Monitor) (factor : ℚ) (patience : Nat)
      (minLr : ℚ)
  | earlyStopping (monitor : Monitor) (patience : Nat)
      (restoreBestWeights : Bool)
  | modelCheckpoint (filepath : String) (monitor : Monitor)
      (saveBestOnly : Bool)
  deriving DecidableEq, Repr

/-- The callback list passed to fit (lines 130-150). -/
def callbacks : List Callback :=
  [Callback.reduceLROnPlateau Monitor.valLoss 0.5 3 0.00001,
   Callback.earlyStopping Monitor.valAccuracy 8 true,
   Callback.modelCheckpoint "best_mnist_model.h5" Monitor.valAccuracy true]

/-- One completed training epoch, as observed by the callbacks: the
validation accuracy reported at its end and an abstract identifier for
the model weights at its end. -/
structure Epoch where
  valAccuracy : ℚ
  weights : Nat
  deriving DecidableEq, Repr

/-- The improvement test of a best-only checkpoint monitoring an
accuracy: no best value recorded yet always counts as an improvement,
otherwise the current value must strictly exceed the best. -/
def improves (best : Option ℚ) (current : ℚ) : Bool :=
  match best with
  | none => true
  | some b => decide (b < current)

/-- One step of the best-only ModelCheckpoint callback: the state is the
best monitored value so far and the file contents (the weights written
at the last improvement), updated exactly when the epoch improves. -/
def ckptStep (s : Option ℚ × Option Nat) (e : Epoch) :
    Option ℚ × Option Nat :=
  if improves s.1 e.valAccuracy then (some e.valAccuracy, some e.weights)
  else s

/-- Running the ModelCheckpoint callback over a whole training history. -/
def ckptRun (epochs : List Epoch) : Option ℚ × Option Nat :=
  epochs.foldl ckptStep (none, none)

/-- The contents of best_mnist_model.h5 at the end of training. -/
def checkpointContents (epochs : List Epoch) : Option Nat :=
  (ckptRun epochs).2

/-- Which epochs the best-only checkpoint callback writes at: the entry
for an epoch is true exactly when its validation accuracy improves on
the best value seen so far. -/
def ckptWrites (best : Option ℚ) : List Epoch → List Bool
  | [] => []
  | e :: rest =>
    if improves best e.valAccuracy then
      true :: ckptWrites (some e.valAccuracy) rest
    else
      false :: ckptWrites best rest

/-- The converted web-format output directory static/model: a manifest
file and the binary weight shard files, holding the converted weights. -/
structure WebDir where
  manifest : String
  shardFiles : Nat
  weights : Nat
  deriving DecidableEq, Repr

/-- The files the script writes, each at its fixed relative path. -/
structure FS where
  bestModelH5 : Option Nat
  modelsModelH5 : Option Nat
  staticModel : Option WebDir
  deriving DecidableEq, Repr

/-- The stages of the pipeline, in the role of trace events. -/
inductive Stage
  | gpuConfig
  | loadData
  | preprocess
  | buildModel
  | compileModel
  | fitModel
  | evaluate
  | loadBestModel
  | saveModel
  | convertModel
  | complete
  deriving DecidableEq, Repr

/-- Everything the framework decides that the script merely observes:
how many GPUs are present, whether the guarded constructions raise,
the dataset the loader returns, the realized training history, and
whether the web-format converter imports and succeeds. -/
structure Env where
  gpuCount : Nat
  gpuConfigRaises : Bool
  gpuErrorMessage : String
  augmentationRaises : Bool
  augErrorMessage : String
  dataset : Dataset
  epochs : List Epoch
  tfjsImportFails : Bool
  tfjsConvertRaises : Bool
  tfjsErrorMessage : String
  shardCount : Nat
  deriving DecidableEq, Repr

/-- The observable state of a run: the ordered stage trace, the printed
log, the visible GPU device count, the augmentation flags, the model
layer list, the preprocessed arrays, the files written and the weights
of the in-memory model. -/
structure PState where
  trace : List Stage
  log : List String
  visibleGpus : Nat
  useAugmentation : Bool
  dataAugmentation : Option (List AugOp)
  modelLayers : List Layer
  xTrainP : List (List (List (List ℚ)))
  xTestP : List (List (List (List ℚ)))
  yTrainP : List (List ℚ)
  yTestP : List (List ℚ)
  fs : FS
  currentWeights : Option Nat
  deriving DecidableEq, Repr

/-- The state before the first statement runs: nothing traced, nothing
logged, no file written, all GPUs visible. -/
def initState (env : Env) : PState :=
  { trace := []
    log := []
    visibleGpus := env.gpuCount
    useAugmentation := false
    dataAugmentation := none
    modelLayers := []
    xTrainP := []
    xTestP := []
    yTrainP := []
    yTestP := []
    fs := { bestModelH5 := none, modelsModelH5 := none, staticModel := none }
    currentWeights := none }

/-- GPU configuration (lines 20-39): with no GPU only a warning is
printed; with a GPU, a RuntimeError during configuration empties the
visible GPU device list and execution continues; otherwise the GPUs
stay visible. -/
def gpuStage (env : Env) (s : PState) : PState :=
  if env.gpuCount = 0 then
    { s with trace := s.trace ++ [Stage.gpuConfig],
             log := s.log ++ ["⚠ No GPU found - training will be slow on CPU"] }
  else if env.gpuConfigRaises then
    { s with trace := s.trace ++ [Stage.gpuConfig],
             visibleGpus := 0,
             log := s.log ++
               ["⚠ GPU configuration error: " ++ env.gpuErrorMessage,
                "  Falling back to CPU..."] }
  else
    { s with trace := s.trace ++ [Stage.gpuConfig],
             log := s.log ++ ["✓ Found GPU(s)"] }

/-- Dataset loading (line 43). -/
def loadDataStage (s : PState) : PState :=
  { s with trace := s.trace ++ [Stage.loadData],
           log := s.log ++ ["Loading MNIST dataset..."] }

/-- Preprocessing (lines 46-55): normalise and reshape every train and
test image, one-hot encode every train and test label. -/
def preprocessStage (env : Env) (s : PState) : PState :=
  { s with trace := s.trace ++ [Stage.preprocess],
           xTrainP := env.dataset.xTrain.map preprocessImage,
           xTestP := env.dataset.xTest.map preprocessImage,
           yTrainP := env.dataset.yTrain.map (fun y => to_categorical y 10),
           yTestP := env.dataset.yTest.map (fun y => to_categorical y 10) }

/-- Augmentation construction (lines 59-71): on any exception the flag
is cleared and the pipeline object set to None, otherwise both are
set. -/
def augStage (env : Env) (s : PState) : PState :=
  if env.augmentationRaises then
    { s with useAugmentation := false,
             dataAugmentation := none,
             log := s.log ++
               ["⚠ Data augmentation failed: " ++ env.augErrorMessage,
                "  Training without augmentation..."] }
  else
    { s with useAugmentation := true,
             dataAugmentation := some dataAugmentationOps,
             log := s.log ++ ["✓ Data augmentation enabled"] }

/-- Model construction (lines 75-119). -/
def buildStage (s : PState) : PState :=
  { s with trace := s.trace ++ [Stage.buildModel],
           modelLayers := buildLayers s.useAugmentation s.dataAugmentation,
           log := s.log ++ ["Creating improved CNN model..."] }

/-- Compilation (lines 121-125). -/
def compileStage (s : PState) : PState :=
  { s with trace := s.trace ++ [Stage.compileModel] }

/-- Fitting (lines 157-164): the ModelCheckpoint callback leaves
best_mnist_model.h5 holding the weights of its last improvement, and the
in-memory model carries the weights of the last epoch. -/
def fitStage (env : Env) (s : PState) : PState :=
  { s with trace := s.trace ++ [Stage.fitModel],
           fs := { s.fs with bestModelH5 := checkpointContents env.epochs },
           currentWeights := env.epochs.getLast?.map Epoch.weights }

/-- One call to model.evaluate (lines 170 and 176). -/
def evaluateStage (s : PState) : PState :=
  { s with trace := s.trace ++ [Stage.evaluate] }

/-- Reloading the best checkpoint (line 175): fails when the checkpoint
file does not exist, otherwise replaces the in-memory model with the
checkpointed weights. -/
def loadBestStage (s : PState) : Option PState :=
  match s.fs.bestModelH5 with
  | none => none
  | some w =>
    some { s with trace := s.trace ++ [Stage.loadBestModel],
                  currentWeights := some w }

/-- Saving the model (lines 181-183): models/mnist_model.h5 receives the
weights of the in-memory model. -/
def saveStage (s : PState) : PState :=
  { s with trace := s.trace ++ [Stage.saveModel],
           fs := { s.fs with modelsModelH5 := s.currentWeights },
           log := s.log ++ ["✓ Model saved to models/mnist_model.h5"] }

/-- The web-format conversion (lines 186-206): an ImportError or any
other exception is caught, the manual conversion command is printed and
nothing is written; on success static/model receives the manifest file
and at least one binary weight shard. -/
def convertStage (env : Env) (s : PState) : PState :=
  if env.tfjsImportFails then
    { s with trace := s.trace ++ [Stage.convertModel],
             log := s.log ++
               ["✗ tensorflowjs not found.",
                "Try: pip install tensorflowjs",
                "As a workaround, you can convert manually later:",
                "  tensorflowjs_converter --input_format keras models/mnist_model.h5 static/model"] }
  else if env.tfjsConvertRaises then
    { s with trace := s.trace ++ [Stage.convertModel],
             log := s.log ++
               ["⚠ Conversion failed: " ++ env.tfjsErrorMessage,
                "You can convert manually later with:",
                "  tensorflowjs_converter --input_format keras models/mnist_model.h5 static/model",
                "Or use the saved model file directly:",
                "  models/mnist_model.h5"] }
  else
    { s with trace := s.trace ++ [Stage.convertModel],
             fs := { s.fs with
                       staticModel := some
                         { manifest := "model.json",
                           shardFiles := env.shardCount + 1,
                           weights := s.currentWeights.getD 0 } },
             log := s.log ++
               ["✓ Model converted successfully",
                "✓ Model saved to static/model/"] }

/-- The closing banner (lines 208-219). -/
def completeStage (s : PState) : PState :=
  { s with trace := s.trace ++ [Stage.complete],
           log := s.log ++ ["✓ TRAINING COMPLETE!"] }

/-- The state after the first evaluation, before the best checkpoint is
reloaded. -/
def stateAfterEval1 (env : Env) : PState :=
  evaluateStage (fitStage env (compileStage (buildStage (augStage env
    (preprocessStage env (loadDataStage (gpuStage env (initState env))))))))

/-- The whole script, as a function of the framework environment.  The
only way it fails to reach the closing banner is the reload of the
checkpoint file finding no file, which happens exactly when no epoch
ran. -/
def runPipeline (env : Env) : Option PState :=
  match loadBestStage (stateAfterEval1 env) with
  | none => none
  | some s =>
    some (completeStage (convertStage env (saveStage (evaluateStage s))))

/-- The script as invoked from the command line: it imports sys but
never reads the argument vector, so the arguments are ignored. -/
def scriptRun (_argv : List String) (env : Env) : Option PState :=
  runPipeline env

/-- The stage trace of every completing run. -/
def fixedTrace : List Stage :=
  [Stage.gpuConfig, Stage.loadData, Stage.preprocess, Stage.buildModel,
   Stage.compileModel, Stage.fitModel, Stage.evaluate, Stage.loadBestModel,
   Stage.evaluate, Stage.saveModel, Stage.convertModel, Stage.complete]

/-- The manual-recovery command printed by both conversion failure
branches. -/
def manualConvertLine : String :=
  "  tensorflowjs_converter --input_format keras models/mnist_model.h5 static/model"

/-- A blank 28x28 MNIST image. -/
def zeroImage : List (List Nat) := List.replicate 28 (List.replicate 28 0)

/-- A one-image dataset used to exercise the pipeline concretely. -/
def exampleDataset : Dataset :=
  { xTrain := [zeroImage], yTrain := [3],
    xTest := [zeroImage], yTest := [7] }

/-- A benign environment: one GPU, nothing raises, two epochs whose
first has the higher validation accuracy, conversion succeeds. -/
def envOk : Env :=
  { gpuCount := 1
    gpuConfigRaises := false
    gpuErrorMessage := ""
    augmentationRaises := false
    augErrorMessage := ""
    dataset := exampleDataset
    epochs := [{ valAccuracy := 1, weights := 3 },
               { valAccuracy := 0, weights := 4 }]
    tfjsImportFails := false
    tfjsConvertRaises := false
    tfjsErrorMessage := ""
    shardCount := 0 }

/-- The benign environment except that importing the web-format
converter fails. -/
def envConvFail : Env := { envOk with tfjsImportFails := true }

/-- The benign environment except that GPU configuration raises a
RuntimeError. -/
def envGpuFail : Env := { envOk with gpuConfigRaises := true }

/-- The benign environment except that constructing the augmentation
pipeline raises. -/
def envAugFail : Env := { envOk with augmentationRaises := true }

/-- The trace accumulated by the stages up to and including the first
evaluation is the same for every environment. -/
lemma stateAfterEval1_trace (env : Env) :
    (stateAfterEval1 env).trace =
      [Stage.gpuConfig, Stage.loadData, Stage.preprocess, Stage.buildModel,
       Stage.compileModel, Stage.fitModel, Stage.evaluate] := by
  unfold stateAfterEval1 evaluateStage fitStage compileStage buildStage
    augStage preprocessStage loadDataStage gpuStage initState
  split_ifs <;> rfl

/-- Filesystem contents after the first evaluation: only the checkpoint
callback has written anything. -/
lemma stateAfterEval1_fs (env : Env) :
    (stateAfterEval1 env).fs =
      { bestModelH5 := checkpointContents env.epochs,
        modelsModelH5 := none, staticModel := none } := by
  unfold stateAfterEval1 evaluateStage fitStage compileStage buildStage
    augStage preprocessStage loadDataStage gpuStage initState
  split_ifs <;> rfl

/-- In-memory weights after the first evaluation: those of the last
epoch. -/
lemma stateAfterEval1_currentWeights (env : Env) :
    (stateAfterEval1 env).currentWeights =
      env.epochs.getLast?.map Epoch.weights := by
  unfold stateAfterEval1 evaluateStage fitStage compileStage buildStage
    augStage preprocessStage loadDataStage gpuStage initState
  split_ifs <;> rfl

/-- The augmentation flags after the first evaluation are decided by
whether the augmentation construction raised. -/
lemma stateAfterEval1_aug (env : Env) :
    (stateAfterEval1 env).useAugmentation = !env.augmentationRaises ∧
      (stateAfterEval1 env).dataAugmentation =
        (if env.augmentationRaises then none else some dataAugmentationOps) := by
  unfold stateAfterEval1 evaluateStage fitStage compileStage buildStage
    augStage preprocessStage loadDataStage gpuStage initState
  split_ifs <;> simp_all

/-- The model layer list after the first evaluation is built from the
augmentation flags. -/
lemma stateAfterEval1_modelLayers (env : Env) :
    (stateAfterEval1 env).modelLayers =
      (if env.augmentationRaises then buildLayers false none
       else buildLayers true (some dataAugmentationOps)) := by
  unfold stateAfterEval1 evaluateStage fitStage compileStage buildStage
    augStage preprocessStage loadDataStage gpuStage initState
  split_ifs <;> rfl

/-- The preprocessed arrays after the first evaluation. -/
lemma stateAfterEval1_arrays (env : Env) :
    (stateAfterEval1 env).xTrainP = env.dataset.xTrain.map preprocessImage ∧
      (stateAfterEval1 env).xTestP = env.dataset.xTest.map preprocessImage ∧
      (stateAfterEval1 env).yTrainP =
        env.dataset.yTrain.map (fun y => to_categorical y 10) ∧
      (stateAfterEval1 env).yTestP =
        env.dataset.yTest.map (fun y => to_categorical y 10) := by
  unfold stateAfterEval1 evaluateStage fitStage compileStage buildStage
    augStage preprocessStage loadDataStage gpuStage initState
  split_ifs <;> exact ⟨rfl, rfl, rfl, rfl⟩

/-- When a GPU is present and its configuration raises, the visible GPU
device count has been set to zero by the time the first evaluation
runs, and the fallback message has been printed. -/
lemma stateAfterEval1_gpuFallback (env : Env) (hg : env.gpuCount ≠ 0)
    (hr : env.gpuConfigRaises = true) :
    (stateAfterEval1 env).visibleGpus = 0 ∧
      "  Falling back to CPU..." ∈ (stateAfterEval1 env).log := by
  unfold stateAfterEval1 evaluateStage fitStage compileStage buildStage
    augStage preprocessStage loadDataStage gpuStage initState
  split_ifs <;> simp_all

/-- The checkpoint callback always writes on the first epoch, so the
checkpoint file exists whenever at least one epoch ran. -/
lemma ckpt_foldl_some (l : List Epoch) :
    ∀ s : Option ℚ × Option Nat, s.2.isSome → (l.foldl ckptStep s).2.isSome := by
  induction l with
  | nil => intro s hs; simpa using hs
  | cons e rest ih =>
    intro s hs
    rw [List.foldl_cons]
    apply ih
    unfold ckptStep
    split
    · rfl
    · exact hs

/-- The checkpoint file exists after any nonempty training history. -/
lemma checkpointContents_isSome {epochs : List Epoch} (h : epochs ≠ []) :
    ∃ w, checkpointContents epochs = some w := by
  match epochs, h with
  | e :: rest, _ =>
    have hs : ((e :: rest).foldl ckptStep (none, none)).2.isSome := by
      rw [List.foldl_cons]
      apply ckpt_foldl_some
      unfold ckptStep improves
      simp
    exact Option.isSome_iff_exists.mp hs

/-- The final state of a completing run, given the checkpointed
weights. -/
def finalState (env : Env) (w : Nat) : PState :=
  completeStage (convertStage env (saveStage (evaluateStage
    { stateAfterEval1 env with
        trace := (stateAfterEval1 env).trace ++ [Stage.loadBestModel],
        currentWeights := some w })))

/-- A run with at least one epoch completes, and its final state is
finalState at the checkpointed weights. -/
lemma runPipeline_eq (env : Env) (h : env.epochs ≠ []) :
    ∃ w, checkpointContents env.epochs = some w ∧
      runPipeline env = some (finalState env w) := by
  obtain ⟨w, hw⟩ := checkpointContents_isSome h
  refine ⟨w, hw, ?_⟩
  simp [runPipeline, loadBestStage, finalState, stateAfterEval1_fs, hw]

/-- The trace of the final state is the fixed stage list. -/
lemma finalState_trace (env : Env) (w : Nat) :
    (finalState env w).trace = fixedTrace := by
  unfold finalState completeStage convertStage saveStage evaluateStage
  split_ifs <;> simp [stateAfterEval1_trace, fixedTrace]

/-- The final checkpoint file holds the checkpoint callback contents. -/
lemma finalState_best (env : Env) (w : Nat) :
    (finalState env w).fs.bestModelH5 = checkpointContents env.epochs := by
  unfold finalState completeStage convertStage saveStage evaluateStage
  have := stateAfterEval1_fs env
  split_ifs <;> simp_all

/-- The persisted model file holds the reloaded checkpoint weights. -/
lemma finalState_models (env : Env) (w : Nat) :
    (finalState env w).fs.modelsModelH5 = some w := by
  unfold finalState completeStage convertStage saveStage evaluateStage
  split_ifs <;> rfl

/-- The converted directory exists iff both conversion guards pass, and
then holds the manifest, a positive number of shards, and the
checkpointed weights. -/
lemma finalState_static (env : Env) (w : Nat) :
    (finalState env w).fs.staticModel =
      (if env.tfjsImportFails ∨ env.tfjsConvertRaises then none
       else some { manifest := "model.json", shardFiles := env.shardCount + 1,
                   weights := w }) := by
  unfold finalState completeStage convertStage saveStage evaluateStage
  split_ifs <;> simp_all [stateAfterEval1_fs]

/-- Completion is always traced in the final state. -/
lemma finalState_complete (env : Env) (w : Nat) :
    Stage.complete ∈ (finalState env w).trace := by
  rw [finalState_trace]
  unfold fixedTrace
  simp

/-- Lines logged before the conversion stage survive to the final
log. -/
lemma finalState_log_mono (env : Env) (w : Nat) (x : String)
    (hx : x ∈ (stateAfterEval1 env).log) :
    x ∈ (finalState env w).log := by
  unfold finalState completeStage convertStage saveStage evaluateStage
  split_ifs <;> simp_all

/-- When either conversion guard fails, the manual-recovery command is
in the final log. -/
lemma finalState_log_manual (env : Env) (w : Nat)
    (hf : env.tfjsImportFails = true ∨ env.tfjsConvertRaises = true) :
    manualConvertLine ∈ (finalState env w).log := by
  unfold finalState completeStage convertStage saveStage evaluateStage
    manualConvertLine
  rcases hf with hf | hf <;> split_ifs <;> simp_all

/-- The closing banner is in the final log. -/
lemma finalState_log_banner (env : Env) (w : Nat) :
    "✓ TRAINING COMPLETE!" ∈ (finalState env w).log := by
  unfold finalState completeStage convertStage saveStage evaluateStage
  split_ifs <;> simp_all

/-- Augmentation flags pass through to the final state. -/
lemma finalState_aug (env : Env) (w : Nat) :
    (finalState env w).useAugmentation = (stateAfterEval1 env).useAugmentation ∧
      (finalState env w).dataAugmentation = (stateAfterEval1 env).dataAugmentation ∧
      (finalState env w).modelLayers = (stateAfterEval1 env).modelLayers := by
  unfold finalState completeStage convertStage saveStage evaluateStage
  split_ifs <;> exact ⟨rfl, rfl, rfl⟩

/-- Preprocessed arrays pass through to the final state. -/
lemma finalState_arrays (env : Env) (w : Nat) :
    (finalState env w).xTrainP = env.dataset.xTrain.map preprocessImage ∧
      (finalState env w).xTestP = env.dataset.xTest.map preprocessImage ∧
      (finalState env w).yTrainP =
        env.dataset.yTrain.map (fun y => to_categorical y 10) ∧
      (finalState env w).yTestP =
        env.dataset.yTest.map (fun y => to_categorical y 10) := by
  have h := stateAfterEval1_arrays env
  unfold finalState completeStage convertStage saveStage evaluateStage
  split_ifs <;> simpa using h

/-- The visible GPU count passes through to the final state. -/
lemma finalState_visibleGpus (env : Env) (w : Nat) :
    (finalState env w).visibleGpus = (stateAfterEval1 env).visibleGpus := by
  unfold finalState completeStage convertStage saveStage evaluateStage
  split_ifs <;> rfl

/-- An improvement over a recorded best value is exactly a strict
increase. -/
lemma improves_some_iff (b c : ℚ) : improves (some b) c = true ↔ b < c := by
  simp [improves]

/-- Soundness of the best-only checkpoint policy: a write at some epoch
means that epoch strictly beats the recorded best and every earlier
epoch. -/
lemma ckptWrites_spec (pre : List Epoch) :
    ∀ (best : Option ℚ) (e : Epoch) (post : List Epoch),
      (ckptWrites best (pre ++ e :: post))[pre.length]? = some true →
      (∀ b, best = some b → b < e.valAccuracy) ∧
        ∀ e2 ∈ pre, e2.valAccuracy < e.valAccuracy := by
  induction pre with
  | nil =>
    intro best e post hw
    simp only [List.nil_append, List.length_nil] at hw
    unfold ckptWrites at hw
    split at hw
    · rename_i hi
      refine ⟨?_, by simp⟩
      intro b hb
      subst hb
      exact (improves_some_iff b e.valAccuracy).mp hi
    · simp at hw
  | cons p rest ih =>
    intro best e post hw
    simp only [List.cons_append, List.length_cons] at hw
    unfold ckptWrites at hw
    split at hw
    · rename_i hi
      rw [List.getElem?_cons_succ] at hw
      obtain ⟨h1, h2⟩ := ih (some p.valAccuracy) e post hw
      have hpe : p.valAccuracy < e.valAccuracy := h1 _ rfl
      refine ⟨?_, ?_⟩
      · intro b hb
        subst hb
        exact ((improves_some_iff b p.valAccuracy).mp hi).trans hpe
      · intro e2 he2
        rcases List.mem_cons.mp he2 with rfl | he2
        · exact hpe
        · exact h2 e2 he2
    · rename_i hi
      rw [List.getElem?_cons_succ] at hw
      obtain ⟨h1, h2⟩ := ih best e post hw
      refine ⟨h1, ?_⟩
      intro e2 he2
      rcases List.mem_cons.mp he2 with rfl | he2
      · cases best with
        | none => simp [improves] at hi
        | some b =>
          have hb : ¬ b < e2.valAccuracy := by
            intro hlt
            exact hi ((improves_some_iff b e2.valAccuracy).mpr hlt)
          exact lt_of_le_of_lt (not_lt.mp hb) (h1 b rfl)
      · exact h2 e2 he2

/-- A normalised 8-bit pixel value lies in the closed unit interval. -/
lemma normalizePixel_unit (p : Nat) (hp : p ≤ 255) :
    0 ≤ normalizePixel p ∧ normalizePixel p ≤ 1 := by
  unfold normalizePixel
  constructor
  · positivity
  · rw [div_le_one (by norm_num)]
    exact_mod_cast hp.trans (by norm_num)

/-- Shape and range of one preprocessed image: 28 rows of 28 cells of a
single channel value, each value the original pixel divided by 255 and
so within the unit interval. -/
lemma preprocessImage_spec (img : List (List Nat)) (hwf : imageWellFormed img) :
    (preprocessImage img).length = 28 ∧
      ∀ row ∈ preprocessImage img, row.length = 28 ∧
        ∀ cell ∈ row, cell.length = 1 ∧ ∀ v ∈ cell, 0 ≤ v ∧ v ≤ 1 := by
  obtain ⟨hlen, hrow⟩ := hwf
  constructor
  · simp [preprocessImage, expandDims, normalizeImage, hlen]
  · intro row hr
    unfold preprocessImage expandDims normalizeImage at hr
    rw [List.mem_map] at hr
    obtain ⟨rowq, hrowq, rfl⟩ := hr
    rw [List.mem_map] at hrowq
    obtain ⟨row0, hrow0, rfl⟩ := hrowq
    obtain ⟨hl, hp⟩ := hrow row0 hrow0
    refine ⟨by simp [hl], ?_⟩
    intro cell hc
    rw [List.map_map, List.mem_map] at hc
    obtain ⟨p, hpmem, rfl⟩ := hc
    refine ⟨rfl, ?_⟩
    intro v hv
    rw [Function.comp_apply, List.mem_singleton] at hv
    subst hv
    exact normalizePixel_unit p (hp p hpmem)

/-- Shape and contents of one one-hot encoded digit label. -/
lemma to_categorical_spec (y : Nat) (hy : y ≤ 9) :
    (to_categorical y 10).length = 10 ∧
      (to_categorical y 10)[y]? = some 1 ∧
      ∀ i < 10, i ≠ y → (to_categorical y 10)[i]? = some 0 := by
  refine ⟨by simp [to_categorical], ?_, ?_⟩
  · unfold to_categorical
    rw [List.getElem?_map, List.getElem?_range (by omega)]
    simp
  · intro i hi hne
    unfold to_categorical
    rw [List.getElem?_map, List.getElem?_range hi]
    simp [hne]

/-- C1, corrected, counterexample to the claim as stated: when the
web-format converter cannot be imported, the run still reaches the
completion banner yet static/model is never written, so a completing
run does not always write all three artifacts. -/
theorem c1_counterexample :
    (runPipeline envConvFail).map
      (fun r => (r.trace.contains Stage.complete, r.fs.staticModel.isSome)) =
      some (true, false) := by
  decide

/-- C1, amended: every run with at least one training epoch completes
and writes the checkpoint file best_mnist_model.h5 and the saved-model
file models/mnist_model.h5 at their fixed relative paths; the converted
web-format directory static/model, a manifest file plus at least one
binary weight shard, is written exactly when the converter imports and
the conversion raises nothing. -/
theorem c1_amended_artifacts (env : Env) (h : env.epochs ≠ []) :
    ∃ r, runPipeline env = some r ∧ Stage.complete ∈ r.trace ∧
      r.fs.bestModelH5.isSome = true ∧ r.fs.modelsModelH5.isSome = true ∧
      (r.fs.staticModel.isSome = true ↔
        (env.tfjsImportFails = false ∧ env.tfjsConvertRaises = false)) ∧
      ∀ d, r.fs.staticModel = some d →
        d.manifest = "model.json" ∧ 0 < d.shardFiles := by
  obtain ⟨w, hw, hr⟩ := runPipeline_eq env h
  refine ⟨finalState env w, hr, finalState_complete env w, ?_, ?_, ?_, ?_⟩
  · rw [finalState_best, hw]; rfl
  · rw [finalState_models]; rfl
  · rw [finalState_static]
    by_cases h1 : env.tfjsImportFails <;> by_cases h2 : env.tfjsConvertRaises <;>
      simp [h1, h2]
  · intro d hd
    rw [finalState_static] at hd
    by_cases hc : env.tfjsImportFails = true ∨ env.tfjsConvertRaises = true
    · rw [if_pos hc] at hd
      exact absurd hd (by simp)
    · rw [if_neg hc, Option.some_inj] at hd
      subst hd
      exact ⟨rfl, Nat.succ_pos _⟩

/-- C1 witness: the amended statement instantiated at the benign
environment. -/
theorem c1_amended_artifacts_witness :
    envOk.epochs ≠ [] ∧
      (∃ r, runPipeline envOk = some r ∧ Stage.complete ∈ r.trace ∧
        r.fs.bestModelH5.isSome = true ∧ r.fs.modelsModelH5.isSome = true ∧
        (r.fs.staticModel.isSome = true ↔
          (envOk.tfjsImportFails = false ∧ envOk.tfjsConvertRaises = false)) ∧
        ∀ d, r.fs.staticModel = some d →
          d.manifest = "model.json" ∧ 0 < d.shardFiles) :=
  ⟨by decide, c1_amended_artifacts envOk (by decide)⟩

/-- C2: when the converter import fails or the conversion raises, the
manual-recovery command is logged, the run reaches the completion
banner, static/model is not written, models/mnist_model.h5 still holds
the checkpointed weights, and the conversion stage never modifies
models/mnist_model.h5. -/
theorem c2_conversion_failure (env : Env) (h : env.epochs ≠ [])
    (hf : env.tfjsImportFails = true ∨ env.tfjsConvertRaises = true) :
    ∃ r, runPipeline env = some r ∧
      manualConvertLine ∈ r.log ∧
      Stage.complete ∈ r.trace ∧
      "✓ TRAINING COMPLETE!" ∈ r.log ∧
      r.fs.staticModel = none ∧
      r.fs.modelsModelH5 = checkpointContents env.epochs ∧
      ∀ s : PState, (convertStage env s).fs.modelsModelH5 = s.fs.modelsModelH5 := by
  obtain ⟨w, hw, hr⟩ := runPipeline_eq env h
  refine ⟨finalState env w, hr, finalState_log_manual env w hf,
    finalState_complete env w, finalState_log_banner env w, ?_, ?_, ?_⟩
  · rw [finalState_static]
    rcases hf with hf | hf <;> simp [hf]
  · rw [finalState_models, hw]
  · intro s
    unfold convertStage
    split_ifs <;> rfl

/-- C2 witness: the statement instantiated at the environment whose
converter import fails. -/
theorem c2_conversion_failure_witness :
    envConvFail.epochs ≠ [] ∧
      (envConvFail.tfjsImportFails = true ∨ envConvFail.tfjsConvertRaises = true) ∧
      (∃ r, runPipeline envConvFail = some r ∧
        manualConvertLine ∈ r.log ∧
        Stage.complete ∈ r.trace ∧
        "✓ TRAINING COMPLETE!" ∈ r.log ∧
        r.fs.staticModel = none ∧
        r.fs.modelsModelH5 = checkpointContents envConvFail.epochs ∧
        ∀ s : PState,
          (convertStage envConvFail s).fs.modelsModelH5 = s.fs.modelsModelH5) :=
  ⟨by decide, by decide,
    c2_conversion_failure envConvFail (by decide) (by decide)⟩

/-- C3: a RuntimeError during GPU configuration with a GPU present
leaves the visible GPU device list empty, prints the CPU fallback
message, and the run still reaches the completion banner. -/
theorem c3_gpu_fallback (env : Env) (h : env.epochs ≠ [])
    (hg : 0 < env.gpuCount) (hr : env.gpuConfigRaises = true) :
    ∃ r, runPipeline env = some r ∧ r.visibleGpus = 0 ∧
      "  Falling back to CPU..." ∈ r.log ∧ Stage.complete ∈ r.trace := by
  obtain ⟨w, hw, hp⟩ := runPipeline_eq env h
  obtain ⟨hv, hl⟩ := stateAfterEval1_gpuFallback env (Nat.pos_iff_ne_zero.mp hg) hr
  exact ⟨finalState env w, hp, by rw [finalState_visibleGpus]; exact hv,
    finalState_log_mono env w _ hl, finalState_complete env w⟩

/-- C3 witness: the statement instantiated at the environment whose GPU
configuration raises. -/
theorem c3_gpu_fallback_witness :
    envGpuFail.epochs ≠ [] ∧ 0 < envGpuFail.gpuCount ∧
      envGpuFail.gpuConfigRaises = true ∧
      (∃ r, runPipeline envGpuFail = some r ∧ r.visibleGpus = 0 ∧
        "  Falling back to CPU..." ∈ r.log ∧ Stage.complete ∈ r.trace) :=
  ⟨by decide, by decide, by decide,
    c3_gpu_fallback envGpuFail (by decide) (by decide) (by decide)⟩

/-- C4: if the augmentation construction raises, the flag is cleared,
the pipeline object is None, no augmentation layer appears in the model
and fitting still runs; otherwise the augmentation layer sits
immediately after the input layer. -/
theorem c4_augmentation (env : Env) (h : env.epochs ≠ []) :
    ∃ r, runPipeline env = some r ∧
      (env.augmentationRaises = true →
        r.useAugmentation = false ∧ r.dataAugmentation = none ∧
        (∀ ops, Layer.augmentation ops ∉ r.modelLayers) ∧
        Stage.fitModel ∈ r.trace) ∧
      (env.augmentationRaises = false →
        r.useAugmentation = true ∧
        r.modelLayers =
          Layer.input 28 28 1 :: Layer.augmentation dataAugmentationOps ::
            convAndDenseLayers) := by
  obtain ⟨w, hw, hp⟩ := runPipeline_eq env h
  obtain ⟨hu, hd, hm⟩ := finalState_aug env w
  obtain ⟨hu1, hd1⟩ := stateAfterEval1_aug env
  have hml := stateAfterEval1_modelLayers env
  refine ⟨finalState env w, hp, ?_, ?_⟩
  · intro ha
    refine ⟨by rw [hu, hu1, ha]; rfl, by rw [hd, hd1, ha]; rfl, ?_, ?_⟩
    · intro ops hmem
      rw [hm, hml, ha] at hmem
      simp [buildLayers, convAndDenseLayers] at hmem
    · rw [finalState_trace]
      unfold fixedTrace
      simp
  · intro ha
    refine ⟨by rw [hu, hu1, ha]; rfl, ?_⟩
    rw [hm, hml, ha]
    rfl

/-- C4 witness: the statement instantiated at the environment whose
augmentation construction raises. -/
theorem c4_augmentation_witness :
    envAugFail.epochs ≠ [] ∧
      (∃ r, runPipeline envAugFail = some r ∧
        (envAugFail.augmentationRaises = true →
          r.useAugmentation = false ∧ r.dataAugmentation = none ∧
          (∀ ops, Layer.augmentation ops ∉ r.modelLayers) ∧
          Stage.fitModel ∈ r.trace) ∧
        (envAugFail.augmentationRaises = false →
          r.useAugmentation = true ∧
          r.modelLayers =
            Layer.input 28 28 1 :: Layer.augmentation dataAugmentationOps ::
              convAndDenseLayers)) :=
  ⟨by decide, c4_augmentation envAugFail (by decide)⟩

/-- C5, corrected, counterexample to the claim as stated: the evaluate
stage runs twice in a completing run (once on the final-epoch weights,
once after the best checkpoint is reloaded), so not every stage runs
exactly once. -/
theorem c5_counterexample :
    (runPipeline envOk).map (fun r => r.trace.count Stage.evaluate) = some 2 := by
  decide

/-- C5, amended: every completing run executes the one fixed linear
stage sequence - load, preprocess, build, compile, fit, evaluate,
reload the best checkpoint, evaluate again, save, convert, complete -
so every stage runs exactly once except evaluation, which runs exactly
twice. -/
theorem c5_amended_linear_order (env : Env) (h : env.epochs ≠ []) :
    ∃ r, runPipeline env = some r ∧ r.trace = fixedTrace ∧
      r.trace.count Stage.evaluate = 2 ∧
      ∀ s : Stage, s ≠ Stage.evaluate → r.trace.count s = 1 := by
  obtain ⟨w, hw, hp⟩ := runPipeline_eq env h
  refine ⟨finalState env w, hp, finalState_trace env w, ?_, ?_⟩
  · rw [finalState_trace]
    rfl
  · intro s hs
    rw [finalState_trace]
    cases s <;> first | exact absurd rfl hs | rfl

/-- C5 witness: the amended statement instantiated at the benign
environment. -/
theorem c5_amended_linear_order_witness :
    envOk.epochs ≠ [] ∧
      (∃ r, runPipeline envOk = some r ∧ r.trace = fixedTrace ∧
        r.trace.count Stage.evaluate = 2 ∧
        ∀ s : Stage, s ≠ Stage.evaluate → r.trace.count s = 1) :=
  ⟨by decide, c5_amended_linear_order envOk (by decide)⟩

/-- C6: the fit callbacks include a best-only checkpoint on validation
accuracy writing best_mnist_model.h5; that callback writes at an epoch
only when its validation accuracy strictly exceeds every earlier one,
and the model persisted to models/mnist_model.h5 is exactly the
reloaded checkpoint contents. -/
theorem c6_checkpoint_best (env : Env) (h : env.epochs ≠ []) :
    ∃ r, runPipeline env = some r ∧
      Callback.modelCheckpoint "best_mnist_model.h5" Monitor.valAccuracy true
        ∈ callbacks ∧
      (∀ pre e post, env.epochs = pre ++ e :: post →
        (ckptWrites none env.epochs)[pre.length]? = some true →
        ∀ e2 ∈ pre, e2.valAccuracy < e.valAccuracy) ∧
      r.fs.bestModelH5 = checkpointContents env.epochs ∧
      r.fs.modelsModelH5 = r.fs.bestModelH5 := by
  obtain ⟨w, hw, hp⟩ := runPipeline_eq env h
  refine ⟨finalState env w, hp, by unfold callbacks; simp, ?_,
    finalState_best env w, ?_⟩
  · intro pre e post hsplit hwri
    rw [hsplit] at hwri
    exact (ckptWrites_spec pre none e post hwri).2
  · rw [finalState_models, finalState_best, hw]

/-- C6 witness: the statement instantiated at the benign environment,
whose first epoch has the best validation accuracy, so the persisted
weights are those of the first epoch rather than the last. -/
theorem c6_checkpoint_best_witness :
    envOk.epochs ≠ [] ∧
      (∃ r, runPipeline envOk = some r ∧
        Callback.modelCheckpoint "best_mnist_model.h5" Monitor.valAccuracy true
          ∈ callbacks ∧
        (∀ pre e post, envOk.epochs = pre ++ e :: post →
          (ckptWrites none envOk.epochs)[pre.length]? = some true →
          ∀ e2 ∈ pre, e2.valAccuracy < e.valAccuracy) ∧
        r.fs.bestModelH5 = checkpointContents envOk.epochs ∧
        r.fs.modelsModelH5 = r.fs.bestModelH5) :=
  ⟨by decide, c6_checkpoint_best envOk (by decide)⟩

/-- C7: after preprocessing, every train and test image is the original
image with each 8-bit pixel divided by 255 and a channel dimension
appended, so it has shape 28 by 28 by 1 and all its values lie in the
closed unit interval. -/
theorem c7_preprocessing (env : Env) (h : env.epochs ≠ [])
    (hwf : datasetWellFormed env.dataset) :
    ∃ r, runPipeline env = some r ∧
      r.xTrainP = env.dataset.xTrain.map preprocessImage ∧
      r.xTestP = env.dataset.xTest.map preprocessImage ∧
      ∀ img ∈ r.xTrainP ++ r.xTestP,
        img.length = 28 ∧ ∀ row ∈ img, row.length = 28 ∧
          ∀ cell ∈ row, cell.length = 1 ∧ ∀ v ∈ cell, 0 ≤ v ∧ v ≤ 1 := by
  obtain ⟨w, hw, hp⟩ := runPipeline_eq env h
  obtain ⟨h1, h2, h3, h4⟩ := finalState_arrays env w
  refine ⟨finalState env w, hp, h1, h2, ?_⟩
  intro img himg
  rw [h1, h2, ← List.map_append, List.mem_map] at himg
  obtain ⟨img0, himg0, rfl⟩ := himg
  exact preprocessImage_spec img0 (hwf.1 img0 himg0)

/-- C7 witness: the statement instantiated at the benign environment
and its concrete one-image dataset. -/
theorem c7_preprocessing_witness :
    envOk.epochs ≠ [] ∧ datasetWellFormed envOk.dataset ∧
      (∃ r, runPipeline envOk = some r ∧
        r.xTrainP = envOk.dataset.xTrain.map preprocessImage ∧
        r.xTestP = envOk.dataset.xTest.map preprocessImage ∧
        ∀ img ∈ r.xTrainP ++ r.xTestP,
          img.length = 28 ∧ ∀ row ∈ img, row.length = 28 ∧
            ∀ cell ∈ row, cell.length = 1 ∧ ∀ v ∈ cell, 0 ≤ v ∧ v ≤ 1) :=
  ⟨by decide, by decide, c7_preprocessing envOk (by decide) (by decide)⟩

/-- C8: every train and test label, being a digit, is one-hot encoded
as a vector of length 10 with value 1 at the label index and 0 at the
other nine indices. -/
theorem c8_one_hot (env : Env) (h : env.epochs ≠ [])
    (hwf : datasetWellFormed env.dataset) :
    ∃ r, runPipeline env = some r ∧
      r.yTrainP = env.dataset.yTrain.map (fun y => to_categorical y 10) ∧
      r.yTestP = env.dataset.yTest.map (fun y => to_categorical y 10) ∧
      ∀ y ∈ env.dataset.yTrain ++ env.dataset.yTest,
        (to_categorical y 10).length = 10 ∧
        (to_categorical y 10)[y]? = some 1 ∧
        ∀ i < 10, i ≠ y → (to_categorical y 10)[i]? = some 0 := by
  obtain ⟨w, hw, hp⟩ := runPipeline_eq env h
  obtain ⟨h1, h2, h3, h4⟩ := finalState_arrays env w
  exact ⟨finalState env w, hp, h3, h4,
    fun y hy => to_categorical_spec y (hwf.2 y hy)⟩

/-- C8 witness: the statement instantiated at the benign environment
and its concrete labels. -/
theorem c8_one_hot_witness :
    envOk.epochs ≠ [] ∧ datasetWellFormed envOk.dataset ∧
      (∃ r, runPipeline envOk = some r ∧
        r.yTrainP = envOk.dataset.yTrain.map (fun y => to_categorical y 10) ∧
        r.yTestP = envOk.dataset.yTest.map (fun y => to_categorical y 10) ∧
        ∀ y ∈ envOk.dataset.yTrain ++ envOk.dataset.yTest,
          (to_categorical y 10).length = 10 ∧
          (to_categorical y 10)[y]? = some 1 ∧
          ∀ i < 10, i ≠ y → (to_categorical y 10)[i]? = some 0) :=
  ⟨by decide, by decide, c8_one_hot envOk (by decide) (by decide)⟩

/-- C9: the script never reads its command-line arguments, so any two
argument vectors give identical behaviour on every environment. -/
theorem c9_no_cli (argv1 argv2 : List String) (env : Env) :
    scriptRun argv1 env = scriptRun argv2 env := rfl

/-- C10: whatever the augmentation outcome, the model starts with the
28 by 28 by 1 input layer and ends with the 10-unit softmax dense
layer, and the two possible layer lists differ only by the augmentation
layer inserted immediately after the input. -/
theorem c10_topology (env : Env) (h : env.epochs ≠ []) :
    ∃ r, runPipeline env = some r ∧
      r.modelLayers.head? = some (Layer.input 28 28 1) ∧
      r.modelLayers.getLast? = some (Layer.dense 10 Activ.softmax) ∧
      (r.modelLayers = buildLayers false none ∨
        r.modelLayers = buildLayers true (some dataAugmentationOps)) ∧
      buildLayers true (some dataAugmentationOps) =
        Layer.input 28 28 1 :: Layer.augmentation dataAugmentationOps ::
          convAndDenseLayers ∧
      buildLayers false none = Layer.input 28 28 1 :: convAndDenseLayers := by
  obtain ⟨w, hw, hp⟩ := runPipeline_eq env h
  obtain ⟨hu, hd, hm⟩ := finalState_aug env w
  have hml := stateAfterEval1_modelLayers env
  refine ⟨finalState env w, hp, ?_, ?_, ?_, rfl, rfl⟩
  · rw [hm, hml]
    split_ifs <;> rfl
  · rw [hm, hml]
    split_ifs <;> rfl
  · rw [hm, hml]
    split_ifs
    · exact Or.inl rfl
    · exact Or.inr rfl

/-- C10 witness: the statement instantiated at the benign
environment. -/
theorem c10_topology_witness :
    envOk.epochs ≠ [] ∧
      (∃ r, runPipeline envOk = some r ∧
        r.modelLayers.head? = some (Layer.input 28 28 1) ∧
        r.modelLayers.getLast? = some (Layer.dense 10 Activ.softmax) ∧
        (r.modelLayers = buildLayers false none ∨
          r.modelLayers = buildLayers true (some dataAugmentationOps)) ∧
        buildLayers true (some dataAugmentationOps) =
          Layer.input 28 28 1 :: Layer.augmentation dataAugmentationOps ::
            convAndDenseLayers ∧
        buildLayers false none = Layer.input 28 28 1 :: convAndDenseLayers) :=
  ⟨by decide, c10_topology envOk (by decide)⟩

end MnistTrain
